import Mathlib

/-!
Verification of the itinerary response parser and prompt builder of the
Trip Planner backend (`src/services/openai_service.py`, `src/main.py`).

The Python code is shallowly embedded: strings are Lean `String`s
(processed through their `List Char` data), Python `float` ratings parsed
from decimal literals are modelled as exact rationals (`ℚ`), fallible
code (Python exceptions) is modelled with `Except String`, and the
specialised regular expressions of the source are embedded as explicit
character-list scanners implementing the exact backtracking behaviour of
the patterns they translate.
-/

namespace TripPlanner

/-! ## Basic Python string helpers -/

/-- Whitespace characters stripped by Python `str.strip` / matched by `\s`. -/
def pyIsSpace (c : Char) : Bool :=
  c = ' ' || c = '\t' || c = '\n' || c = '\r' || c = '\x0b' || c = '\x0c'

/-- Python `str.strip()` on a character list. -/
def stripChars (l : List Char) : List Char :=
  ((l.dropWhile pyIsSpace).reverse.dropWhile pyIsSpace).reverse

/-- Python `str.strip()`. -/
def pyStrip (s : String) : String :=
  String.mk (stripChars s.data)

/-- Python `str.lower()` (ASCII; the source only compares ASCII letters). -/
def pyLower (s : String) : String :=
  String.mk (s.data.map Char.toLower)

/-- Python `str.startswith`. -/
def pyStartsWith (s pre : String) : Bool :=
  pre.data.isPrefixOf s.data

/-- Cons a character onto the first chunk of a chunk list. -/
def consHead (c : Char) : List (List Char) → List (List Char)
  | [] => [[c]]
  | h :: t => (c :: h) :: t

/-- Python `str.split(sep)` for a nonempty separator: split at every
leftmost, non-overlapping occurrence of `sep`, consuming it.  `fuel` bounds
the recursion; each step consumes at least one character, so
`fuel = l.length` always suffices. -/
def splitOnFuel (sep : List Char) : ℕ → List Char → List (List Char)
  | _, [] => [[]]
  | 0, l => [l]
  | fuel + 1, c :: rest =>
    if sep.isPrefixOf (c :: rest) then
      [] :: splitOnFuel sep fuel ((c :: rest).drop sep.length)
    else consHead c (splitOnFuel sep fuel rest)

/-- Python `str.split(sep)` on character lists. -/
def pySplitChars (sep l : List Char) : List (List Char) :=
  splitOnFuel sep l.length l

/-- Python `s.split(sep)` returning strings. -/
def pySplit (sep s : String) : List String :=
  (pySplitChars sep.data s.data).map String.mk

/-- Join chunks back with the separator (inverse of a full split). -/
def joinWith (sep : List Char) : List (List Char) → List Char
  | [] => []
  | [x] => x
  | x :: rest => x ++ sep ++ joinWith sep rest

/-- Python `s.split(sep, 1)`: the part before the first occurrence of `sep`,
and the rest (`none` when `sep` does not occur). -/
def pySplit1 (sep s : String) : String × Option String :=
  match pySplitChars sep.data s.data with
  | [] => (s, none)
  | [x] => (String.mk x, none)
  | x :: rest => (String.mk x, some (String.mk (joinWith sep.data rest)))

/-- Second component of `pySplit1`, defaulting to `""`.  Call sites in the
source index `[1]` only under a guard that guarantees the separator occurs. -/
def sndD (p : String × Option String) : String :=
  p.2.getD ""

/-- Python `pat in s` (substring containment). -/
def containsSubstr (s pat : String) : Bool :=
  pat.data.isEmpty || (pySplitChars pat.data s.data).length != 1

/-- Value of a list of decimal digit characters. -/
def digitsToNat (l : List Char) : ℕ :=
  l.foldl (fun n c => 10 * n + (c.toNat - '0'.toNat)) 0

/-- Exact value of the decimal literal `ip.fp` (Python `float` modelled as `ℚ`). -/
def decValue (ip fp : List Char) : ℚ :=
  (digitsToNat ip : ℚ) + (digitsToNat fp : ℚ) / 10 ^ fp.length

/-- Python `float(s)` restricted to strings of digits and dots (the only
arguments the source ever passes): valid iff the string holds at least one
digit and at most one dot.  `float("4.5.6")` raises `ValueError`. -/
def floatOfDigitDot (run : List Char) : Except String ℚ :=
  let ip := run.takeWhile Char.isDigit
  match run.dropWhile Char.isDigit with
  | [] => if ip.isEmpty then .error "could not convert string to float"
          else .ok (digitsToNat ip : ℚ)
  | '.' :: fp =>
      if fp.all Char.isDigit && !(ip.isEmpty && fp.isEmpty) then
        .ok (decValue ip fp)
      else .error "could not convert string to float"
  | _ => .error "could not convert string to float"

/-! ## Regex scanners

Each `try...At` function decides whether the corresponding Python regular
expression matches at the head of the character list; `findFirst` then scans
the start positions left to right, exactly like `re.search`. -/

/-- `re.search`: try a head-anchored matcher at every start position. -/
def findFirst (f : List Char → Option α) : List Char → Option α
  | [] => f []
  | c :: rest =>
    match f (c :: rest) with
    | some x => some x
    | none => findFirst f rest

/-- Head match of `\(([\d.]+)\)` (the meal-rating pattern): an opening
parenthesis, a maximal nonempty run of digits/dots, a closing parenthesis. -/
def tryParenRatingAt : List Char → Option (List Char)
  | '(' :: rest =>
    let run := rest.takeWhile (fun c => c.isDigit || c = '.')
    match rest.dropWhile (fun c => c.isDigit || c = '.') with
    | ')' :: _ => if run.isEmpty then none else some run
    | _ => none
  | _ => none

/-- Head match of `(\d+\.\d+)` (the `extract_rating` pattern): returns the
integer and fractional digit runs. -/
def tryDecimalAt (l : List Char) : Option (List Char × List Char) :=
  let ip := l.takeWhile Char.isDigit
  if ip.isEmpty then none
  else
    match l.dropWhile Char.isDigit with
    | '.' :: r =>
      let fp := r.takeWhile Char.isDigit
      if fp.isEmpty then none else some (ip, fp)
    | _ => none

/-- Head match of `(\d+\.?\d*)` (the accommodation user-rating pattern). -/
def tryNumAt (l : List Char) : Option (List Char × List Char) :=
  let ip := l.takeWhile Char.isDigit
  if ip.isEmpty then none
  else
    match l.dropWhile Char.isDigit with
    | '.' :: r => some (ip, r.takeWhile Char.isDigit)
    | _ => some (ip, [])

/-- Head match of `(\d+)` (the star-rating pattern). -/
def tryIntAt (l : List Char) : Option (List Char) :=
  let run := l.takeWhile Char.isDigit
  if run.isEmpty then none else some run

/-- Head match of `\((.*?)\)` (the activity-time pattern): `.` does not cross
a newline, and the lazy group stops at the first closing parenthesis. -/
def tryParenAt : List Char → Option (List Char)
  | '(' :: rest =>
    let a := rest.takeWhile (fun c => c != ')' && c != '\n')
    match rest.dropWhile (fun c => c != ')' && c != '\n') with
    | ')' :: _ => some a
    | _ => none
  | _ => none

/-- Head match of `@\s*(.*?)(?=\.|$)` (the activity-location pattern). -/
def tryAtLocAt : List Char → Option (List Char)
  | '@' :: rest =>
    let r := rest.dropWhile pyIsSpace
    let a := r.takeWhile (fun c => c != '.' && c != '\n')
    match r.dropWhile (fun c => c != '.' && c != '\n') with
    | [] => some a
    | '.' :: _ => some a
    | ['\n'] => some a
    | _ => none
  | _ => none

/-- Backtracking search for the closing `](` of a markdown link, as done by
the lazy groups of `\[(.*?)\]\((.*?)\)`: each candidate `]` is tried in turn;
if no `(...)` with a closing parenthesis follows it, the `]` is absorbed into
the link text and the scan continues.  Neither group may cross a newline. -/
def scanLinkClose (acc : List Char) : List Char → Option (List Char × List Char)
  | [] => none
  | c :: rest =>
    if c = '\n' then none
    else if c = ']' then
      match rest with
      | '(' :: r2 =>
        let b := r2.takeWhile (fun d => d != ')' && d != '\n')
        match r2.dropWhile (fun d => d != ')' && d != '\n') with
        | ')' :: _ => some (acc.reverse, b)
        | _ => scanLinkClose (c :: acc) rest
      | _ => scanLinkClose (c :: acc) rest
    else scanLinkClose (c :: acc) rest

/-- Head match of `\[(.*?)\]\((.*?)\)` (markdown link): link text and target. -/
def tryLinkAt : List Char → Option (List Char × List Char)
  | '[' :: rest => scanLinkClose [] rest
  | _ => none

/-- `re.sub` of the pattern `\s*\([\d.]+\)` with `""`: delete every parenthesised
digit/dot run together with the whitespace run immediately before it.
`fuel` bounds the recursion (each step consumes at least one character,
so `fuel = l.length` always suffices). -/
def subParenRatingGo : ℕ → List Char → List Char
  | 0, l => l
  | _, [] => []
  | fuel + 1, c :: rest =>
    let t := (c :: rest).dropWhile pyIsSpace
    match t with
    | '(' :: r2 =>
      let run := r2.takeWhile (fun d => d.isDigit || d = '.')
      match r2.dropWhile (fun d => d.isDigit || d = '.') with
      | ')' :: r4 =>
        if run.isEmpty then c :: subParenRatingGo fuel rest
        else subParenRatingGo fuel r4
      | _ => c :: subParenRatingGo fuel rest
    | _ => c :: subParenRatingGo fuel rest

/-- `re.sub` of the pattern `\s*\([\d.]+\)` with `""`. -/
def subParenRating (l : List Char) : List Char :=
  subParenRatingGo l.length l

/-! ## Data model (the dictionaries built by `parse_itinerary_response`) -/

/-- A meal dictionary (`parse_meal` result / per-day default).  The source
builds meals with exactly the keys `spot`, `rating`, `description`. -/
structure MealEntry where
  spot : String
  rating : ℚ
  description : String
deriving DecidableEq

/-- An activity dictionary (`parse_activity` result / per-day default). -/
structure ActivityEntry where
  activity : String
  time : String
  location : String
  url : Option String
deriving DecidableEq

/-- A hotel dictionary built by `parse_accommodation`. -/
structure Hotel where
  name : String
  website : Option String
  description : String
  location : String
  rating : ℚ
  star_rating : ℕ
  unique_features : String
  price_range : String
  nightly_rate : String
deriving DecidableEq

/-- A day dictionary built by `parse_daily_activities`. -/
structure DayPlan where
  day_number : ℕ
  date : String
  breakfast : MealEntry
  morning_activity : ActivityEntry
  lunch : MealEntry
  afternoon_activity : ActivityEntry
  dinner : MealEntry
  evening_activity : ActivityEntry
deriving DecidableEq

/-- The travel-tips dictionary built by `parse_travel_tips` (always carries
all four keys). -/
structure TravelTips where
  weather : String
  transportation : String
  cultural_notes : String
  seasonal_events : String
deriving DecidableEq

/-- The top-level parse result.  `travel_tips` is initialised to the empty
dictionary `{}` in the source and only replaced when a `TRAVEL TIPS:` section
is parsed; `none` models the empty dictionary, `some t` the populated one. -/
structure ParsedData where
  accommodation : List Hotel
  daily_schedule : List DayPlan
  travel_tips : Option TravelTips
deriving DecidableEq

/-- The default structure returned when text-mode parsing raises. -/
def defaultResult : ParsedData :=
  { accommodation := []
    daily_schedule := []
    travel_tips := some { weather := "", transportation := "",
                          cultural_notes := "", seasonal_events := "" } }

/-! ## `extract_rating` and `parse_meal` -/

/-- `extract_rating` (`openai_service.py` lines 174-178): first match of
`(\d+\.\d+)`, else `0.0`.  The matched group is always a valid float. -/
def extract_rating (text : String) : ℚ :=
  match findFirst tryDecimalAt text.data with
  | some (ip, fp) => decValue ip fp
  | none => 0

/-- Default meal dictionary used when a meal pattern is absent from a day. -/
def defaultMeal : MealEntry :=
  { spot := "", rating := 0, description := "" }

/-- Default activity dictionary used when an activity pattern is absent. -/
def defaultActivity : ActivityEntry :=
  { activity := "", time := "", location := "", url := none }

/-- `parse_meal` (`openai_service.py` lines 281-296).  `float` applied to the
`[\d.]+` group can raise `ValueError` (e.g. on `"4.5.6"`), modelled by
`Except`. -/
def parse_meal (text : String) : Except String MealEntry :=
  let ratingE : Except String ℚ :=
    match findFirst tryParenRatingAt text.data with
    | some run => floatOfDigitDot run
    | none => .ok 0
  match ratingE with
  | .error e => .error e
  | .ok rating =>
    let name := pyStrip (String.mk (subParenRating text.data))
    let (p0, p1) := pySplit1 " - " name
    .ok { spot := pyStrip p0
          rating := rating
          description := match p1 with | some d => pyStrip d | none => "" }

/-- `parse_activity` (`openai_service.py` lines 298-319). -/
def parse_activity (text : String) : ActivityEntry :=
  let time := match findFirst tryParenAt text.data with
              | some a => String.mk a
              | none => ""
  let location := match findFirst tryAtLocAt text.data with
                  | some a => pyStrip (String.mk a)
                  | none => ""
  match findFirst tryLinkAt text.data with
  | some (a, u) =>
    { activity := String.mk a, time := time, location := location,
      url := some (String.mk u) }
  | none =>
    { activity := pyStrip (pySplit1 "(" text).1, time := time,
      location := location, url := none }

/-! ## `parse_travel_tips` -/

/-- The four travel-tips fields tracked by the `current_section` variable. -/
inductive TipField where
  | weather
  | transportation
  | cultural_notes
  | seasonal_events
deriving DecidableEq

/-- Label whose prefix selects a travel-tips field in the source. -/
def tipLabel : TipField → String
  | .weather => "Weather:"
  | .transportation => "Transportation:"
  | .cultural_notes => "Cultural Notes:"
  | .seasonal_events => "Seasonal Events:"

/-- Read a travel-tips field. -/
def getTip : TipField → TravelTips → String
  | .weather, t => t.weather
  | .transportation, t => t.transportation
  | .cultural_notes, t => t.cultural_notes
  | .seasonal_events, t => t.seasonal_events

/-- Overwrite a travel-tips field. -/
def setTip : TipField → TravelTips → String → TravelTips
  | .weather, t, v => { t with weather := v }
  | .transportation, t, v => { t with transportation := v }
  | .cultural_notes, t, v => { t with cultural_notes := v }
  | .seasonal_events, t, v => { t with seasonal_events := v }

/-- One loop iteration of `parse_travel_tips` (lines 371-390): recognise a
label prefix, or append the stripped line to the active field. -/
def tipsStep (st : TravelTips × Option TipField) (rawLine : String) :
    TravelTips × Option TipField :=
  let line := pyStrip rawLine
  if line = "" then st
  else if pyStartsWith line "Weather:" then
    (setTip .weather st.1 (pyStrip (sndD (pySplit1 ":" line))), some .weather)
  else if pyStartsWith line "Transportation:" then
    (setTip .transportation st.1 (pyStrip (sndD (pySplit1 ":" line))),
     some .transportation)
  else if pyStartsWith line "Cultural Notes:" then
    (setTip .cultural_notes st.1 (pyStrip (sndD (pySplit1 ":" line))),
     some .cultural_notes)
  else if pyStartsWith line "Seasonal Events:" then
    (setTip .seasonal_events st.1 (pyStrip (sndD (pySplit1 ":" line))),
     some .seasonal_events)
  else
    match st.2 with
    | some f => (setTip f st.1 (getTip f st.1 ++ " " ++ line), st.2)
    | none => st

/-- `parse_travel_tips` (`openai_service.py` lines 362-392). -/
def parse_travel_tips (text : String) : TravelTips :=
  ((pySplit "\n" text).foldl tipsStep
    ({ weather := "", transportation := "", cultural_notes := "",
       seasonal_events := "" }, none)).1

/-- Equality of `Except` values is decidable when both components are. -/
instance [DecidableEq ε] [DecidableEq α] : DecidableEq (Except ε α) := fun a b =>
  match a, b with
  | .error x, .error y =>
    if h : x = y then .isTrue (h ▸ rfl)
    else .isFalse (fun hh => h (Except.error.inj hh))
  | .ok x, .ok y =>
    if h : x = y then .isTrue (h ▸ rfl)
    else .isFalse (fun hh => h (Except.ok.inj hh))
  | .error _, .ok _ => .isFalse (fun hh => Except.noConfusion hh)
  | .ok _, .error _ => .isFalse (fun hh => Except.noConfusion hh)

/-! ## `parse_accommodation` -/

/-- Fresh hotel dictionary started at an enumeration line (lines 219-229). -/
def newHotel (name : String) (website : Option String) : Hotel :=
  { name := name, website := website, description := "", location := "",
    rating := 0, star_rating := 0, unique_features := "", price_range := "",
    nightly_rate := "" }

/-- `re.match` of `^\d+\.` on the line: a leading digit run followed by a period. -/
def isNumDotStart (l : List Char) : Bool :=
  !(l.takeWhile Char.isDigit).isEmpty &&
    ((l.dropWhile Char.isDigit).head? == some '.')

/-- Processing of one `- `-detail line of a hotel block (lines 231-258). -/
def hotelDetail (h : Hotel) (detail : String) : Hotel :=
  if containsSubstr detail "Location:" then
    { h with location := pyStrip (sndD (pySplit1 ":" detail)) }
  else if containsSubstr detail "Official Star Rating:" then
    match findFirst tryIntAt detail.data with
    | some run => { h with star_rating := digitsToNat run }
    | none => h
  else if containsSubstr detail "User Rating:" then
    match findFirst tryNumAt detail.data with
    | some (ip, fp) => { h with rating := decValue ip fp }
    | none => h
  else if containsSubstr detail "Unique Features:" then
    { h with unique_features := pyStrip (sndD (pySplit1 ":" detail)) }
  else if containsSubstr detail "Price Range Category:" then
    { h with price_range := pyStrip (sndD (pySplit1 ":" detail)) }
  else if containsSubstr detail "Typical Nightly Rate:" then
    { h with nightly_rate := pyStrip (sndD (pySplit1 ":" detail)) }
  else if h.description = "" then { h with description := detail }
  else { h with description := h.description ++ " " ++ detail }

/-- One loop iteration of `parse_accommodation` (lines 197-258). -/
def hotelStep (st : List Hotel × Option Hotel) (rawLine : String) :
    List Hotel × Option Hotel :=
  let line := pyStrip rawLine
  if line = "" || pyLower line = "accommodation" then st
  else if isNumDotStart line.data then
    let hotels := match st.2 with | some h => st.1 ++ [h] | none => st.1
    let hotel_name := pyStrip (sndD (pySplit1 "." line))
    match tryLinkAt hotel_name.data with
    | some (n, u) => (hotels, some (newHotel (String.mk n) (some (String.mk u))))
    | none => (hotels, some (newHotel hotel_name none))
  else
    match st.2 with
    | some h =>
      if pyStartsWith line "-" then
        (st.1, some (hotelDetail h (pyStrip (String.mk (line.data.drop 1)))))
      else st
    | none => st

/-- `parse_accommodation` (`openai_service.py` lines 191-264). -/
def parse_accommodation (text : String) : List Hotel :=
  let st := (pySplit "\n" text).foldl hotelStep ([], none)
  match st.2 with
  | some h => st.1 ++ [h]
  | none => st.1

/-! ## `parse_daily_activities` -/

/-- Head match of `Day (\d+) - (\d{4}-\d{2}-\d{2}):` after the literal part
`Day ` and the day-number group: the date group plus the final colon. -/
def matchDate : List Char → Option String
  | a :: b :: c :: d :: '-' :: e :: f :: '-' :: g :: h :: ':' :: _ =>
    if [a, b, c, d, e, f, g, h].all Char.isDigit then
      some (String.mk [a, b, c, d, '-', e, f, '-', g, h])
    else none
  | _ => none

/-- Head match of the full day-header pattern
`Day (\d+) - (\d{4}-\d{2}-\d{2}):` returning day number and date groups. -/
def tryDayAt : List Char → Option (ℕ × String)
  | 'D' :: 'a' :: 'y' :: ' ' :: r =>
    let num := r.takeWhile Char.isDigit
    if num.isEmpty then none
    else
      match r.dropWhile Char.isDigit with
      | ' ' :: '-' :: ' ' :: r2 => (matchDate r2).map (fun d => (digitsToNat num, d))
      | _ => none
  | _ => none

/-- Head match of `LABEL\s*(.*?)(?=\n|$)` with `re.DOTALL` (the six
section patterns of `parse_daily_activities`): the literal label, a greedy
whitespace run (which may cross newlines), then the lazy group up to the
next newline or the end of the text. -/
def tryLabeledAt (label : String) (l : List Char) : Option (List Char)  :=
  if label.data.isPrefixOf l then
    let r := (l.drop label.data.length).dropWhile pyIsSpace
    some (r.takeWhile (fun c => c != '\n'))
  else none

/-- `pattern.search(day_text)` for one of the six labelled section patterns. -/
def findLabeled (label : String) (s : String) : Option String :=
  (findFirst (tryLabeledAt label) s.data).map String.mk

/-- A meal slot of a day: parsed from the stripped group when the pattern
matches, the default meal dictionary otherwise (lines 347-352). -/
def mealSlot (label : String) (c : String) : Except String MealEntry :=
  match findLabeled label c with
  | some content => parse_meal (pyStrip content)
  | none => .ok defaultMeal

/-- An activity slot of a day (lines 347-354). -/
def activitySlot (label : String) (c : String) : ActivityEntry :=
  match findLabeled label c with
  | some content => parse_activity (pyStrip content)
  | none => defaultActivity

/-- Construction of the day dictionary for a chunk whose header matched,
with `day_number` set from the `(\d+)` group (lines 335-354). -/
def buildDay (n : ℕ) (date : String) (c : String) : Except String DayPlan :=
  match mealSlot "Breakfast:" c with
  | .error e => .error e
  | .ok b =>
    match mealSlot "Lunch:" c with
    | .error e => .error e
    | .ok lu =>
      match mealSlot "Dinner:" c with
      | .error e => .error e
      | .ok di =>
        .ok { day_number := n
              date := date
              breakfast := b
              morning_activity := activitySlot "Morning Activity:" c
              lunch := lu
              afternoon_activity := activitySlot "Afternoon Activity:" c
              dinner := di
              evening_activity := activitySlot "Evening Activity:" c }

/-- `text.split` on `\nDay ` (line 322). -/
def dayChunks (text : String) : List String :=
  pySplit "\nDay " text

/-- Re-prefixing of a chunk with `Day ` (lines 327-328). -/
def dayPrefixed (c : String) : String :=
  if pyStartsWith c "Day " then c else "Day " ++ c

/-- The loop of `parse_daily_activities` (lines 322-358): `cur` is
`current_day`, `acc` the accumulated `daily_schedule`. -/
def parseDaysGo : List String → Option DayPlan → List DayPlan →
    Except String (List DayPlan)
  | [], cur, acc => .ok (acc ++ cur.toList)
  | c :: rest, cur, acc =>
    if pyStrip c = "" then parseDaysGo rest cur acc
    else
      match findFirst tryDayAt (dayPrefixed c).data with
      | none => parseDaysGo rest cur acc
      | some (n, date) =>
        match buildDay n date (dayPrefixed c) with
        | .error e => .error e
        | .ok day => parseDaysGo rest (some day) (acc ++ cur.toList)

/-- `parse_daily_activities` (`openai_service.py` lines 266-360). -/
def parse_daily_activities (text : String) : Except String (List DayPlan) :=
  parseDaysGo (dayChunks text) none []

/-! ## Top level: `parse_itinerary_response` -/

/-- The three section-header literals of the splitting pattern
`\n(?=ACCOMMODATION:|DAILY ITINERARY:|TRAVEL TIPS:)` (line 396). -/
def headerLits : List String :=
  ["ACCOMMODATION:", "DAILY ITINERARY:", "TRAVEL TIPS:"]

/-- Does one of the three section-header literals start here? -/
def startsWithAny (l : List Char) : Bool :=
  headerLits.any (fun h => h.data.isPrefixOf l)

/-- `re.split` on `\n(?=ACCOMMODATION:|DAILY ITINERARY:|TRAVEL TIPS:)`:
split at every newline that is immediately followed by a section-header
literal; the newline is consumed. -/
def splitSections : List Char → List (List Char)
  | [] => [[]]
  | c :: rest =>
    if c = '\n' && startsWithAny rest then [] :: splitSections rest
    else consHead c (splitSections rest)

/-- Dispatch of one section (lines 404-410). -/
def sectionStep (pd : ParsedData) (sec : String) : Except String ParsedData :=
  if pyStartsWith (pyStrip sec) "ACCOMMODATION:" then
    .ok { pd with accommodation := parse_accommodation sec }
  else if pyStartsWith (pyStrip sec) "DAILY ITINERARY:" then
    match parse_daily_activities sec with
    | .error e => .error e
    | .ok ds => .ok { pd with daily_schedule := ds }
  else if pyStartsWith (pyStrip sec) "TRAVEL TIPS:" then
    .ok { pd with travel_tips := some (parse_travel_tips sec) }
  else .ok pd

/-- The section loop (lines 404-410). -/
def sectionsGo : List String → ParsedData → Except String ParsedData
  | [], pd => .ok pd
  | sec :: rest, pd =>
    match sectionStep pd sec with
    | .error e => .error e
    | .ok pd2 => sectionsGo rest pd2

/-- The body of the `try:` block of `parse_itinerary_response`
(lines 394-415): any exception escaping it is an `Except.error`. -/
def parse_inner (s : String) : Except String ParsedData :=
  sectionsGo ((splitSections s.data).map String.mk)
    { accommodation := [], daily_schedule := [], travel_tips := none }

/-- `parse_itinerary_response` (`openai_service.py` lines 161-429): the
`except` clause converts any exception into the default structure. -/
def parse_itinerary_response (s : String) : ParsedData :=
  match parse_inner s with
  | .ok r => r
  | .error _ => defaultResult

/-! ## `generate_trip_plan` (`openai_service.py` lines 138-159)

The external chat-completion call is modelled by its outcome: an error when
the call itself raises, otherwise the list of returned choice contents.  The
source re-raises any exception (`except Exception as e: ... raise`) and
raises its own exception when `response.choices` is empty. -/

/-- `generate_trip_plan`: propagate a failed call, raise on an empty choice
list, otherwise return the message content of the first choice. -/
def generate_trip_plan (call : Except String (List String)) :
    Except String String :=
  match call with
  | .error e => .error e
  | .ok choices =>
    match choices with
    | [] => .error "No response generated from OpenAI"
    | c :: _ => .ok c

/-! ## The prompt builder (`main.py` lines 83-123)

Calendar dates are modelled as day ordinals (`Int`); the Python expression
`(end_date - start_date).days` is then plain integer subtraction. -/

/-- The trip-constraints record (`models/trips.py`).  Optional text fields
are `Option String`. -/
structure Trip where
  destination : String
  start_date : Int
  end_date : Int
  arrival_time : Option String
  departure_time : Option String
  dietary_preferences : Option String
  activity_preferences : Option String
  additional_notes : Option String
deriving DecidableEq

/-- The user-profile record (`models/user_profile.py`).  Enum-valued fields
(`traveler_type`, `activity_level`, `budget_preference`) are modelled by the
string the f-string renders for them. -/
structure UserProfile where
  traveler_type : Option String
  activity_level : Option String
  special_interests : Option String
  dietary_preferences : Option String
  accessibility_needs : Option String
  preferred_languages : Option String
  budget_preference : Option String
deriving DecidableEq

/-- Python `x or default` on an optional string: `None` and `""` are falsy. -/
def pyOrStr (o : Option String) (d : String) : String :=
  match o with
  | none => d
  | some s => if s = "" then d else s

/-- Python `x.value if x else default` / `x or default` on an optional enum
member (an enum member is always truthy). -/
def pyOptValue (o : Option String) (d : String) : String :=
  o.getD d

/-- The base f-string of the prompt (`main.py` lines 97-109). -/
def promptCore (t : Trip) : String :=
  "\n    Please create an itinerary for:\n    \n    Destination: "
    ++ t.destination
    ++ "\n    Length of Stay: "
    ++ toString (t.end_date - t.start_date + 1)
    ++ " days\n    Travel Preferences: "
    ++ pyOrStr t.activity_preferences "None specified"
    ++ "\n    \n    Additional Details:\n    - Arrival: "
    ++ pyOrStr t.arrival_time "Not specified"
    ++ "\n    - Departure: "
    ++ pyOrStr t.departure_time "Not specified"
    ++ "\n    - Dietary Preferences: "
    ++ pyOrStr t.dietary_preferences "None specified"
    ++ "\n    - Additional Notes: "
    ++ pyOrStr t.additional_notes "None"
    ++ "\n    "

/-- The user-preferences block appended when a profile row exists
(`main.py` lines 112-123). -/
def profileBlock (p : UserProfile) : String :=
  "\n        \n        User Preferences:\n        - Traveler Type: "
    ++ pyOptValue p.traveler_type "Not specified"
    ++ "\n        - Activity Level: "
    ++ pyOptValue p.activity_level "Not specified"
    ++ "\n        - Special Interests: "
    ++ pyOrStr p.special_interests "Not specified"
    ++ "\n        - Dietary Preferences: "
    ++ pyOrStr p.dietary_preferences "Not specified"
    ++ "\n        - Accessibility Needs: "
    ++ pyOrStr p.accessibility_needs "Not specified"
    ++ "\n        - Preferred Languages: "
    ++ pyOrStr p.preferred_languages "Not specified"
    ++ "\n        - Budget Preference: "
    ++ pyOptValue p.budget_preference "Not specified"
    ++ "\n        "

/-- The prompt built by `generate_itinerary` (`main.py` lines 83-123) as a
function of the trip row and the optionally found user profile. -/
def generate_itinerary_prompt (t : Trip) (p : Option UserProfile) : String :=
  match p with
  | none => promptCore t
  | some up => promptCore t ++ profileBlock up

/-! ## JSON mode

Modelled from the spec: the strict-JSON dialect of the response parser
(spec section 4.2, JSON mode) is not present under `src/` — the repository
only ships the free-text parser — so its decoded data model and the
all-or-nothing schema validation are modelled from the words of the spec.  The
model starts from an already decoded response (every required field
present); the validation checks the `[4.2, 5.0]` rating bound on every
accommodation and meal entry and the `YYYY-MM-DD` shape of every date, and
any violation replaces the entire response by the default structure. -/

/-- Modelled from the spec: a decoded JSON-mode meal entry. -/
structure JsonMeal where
  spot : String
  rating : ℚ
  description : String
  url : Option String
deriving DecidableEq

/-- Modelled from the spec: a decoded JSON-mode activity entry. -/
structure JsonActivity where
  activity : String
  description : String
  url : Option String
deriving DecidableEq

/-- Modelled from the spec: a decoded JSON-mode accommodation entry. -/
structure JsonAccommodation where
  name : String
  description : String
  location : String
  rating : ℚ
  unique_features : String
  nightly_rate : ℚ
  url : Option String
deriving DecidableEq

/-- Modelled from the spec: a decoded JSON-mode day entry. -/
structure JsonDay where
  day_number : ℕ
  date : String
  breakfast : JsonMeal
  morning_activity : JsonActivity
  lunch : JsonMeal
  afternoon_activity : JsonActivity
  dinner : JsonMeal
  evening_activity : JsonActivity
deriving DecidableEq

/-- Modelled from the spec: decoded JSON-mode travel tips. -/
structure JsonTravelTips where
  weather : String
  transportation : String
  cultural_notes : String
  seasonal_events : String
deriving DecidableEq

/-- Modelled from the spec: a decoded JSON-mode response. -/
structure JsonItinerary where
  accommodations : List JsonAccommodation
  daily_schedule : List JsonDay
  travel_tips : JsonTravelTips
deriving DecidableEq

/-- Modelled from the spec: the contractual rating bound `[4.2, 5.0]`. -/
def jsonRatingOk (r : ℚ) : Bool :=
  decide (42 / 10 ≤ r ∧ r ≤ 5)

/-- Modelled from the spec: `date` parseable as `YYYY-MM-DD`. -/
def isIsoDate (s : String) : Bool :=
  match s.data with
  | [a, b, c, d, '-', e, f, '-', g, h] => [a, b, c, d, e, f, g, h].all Char.isDigit
  | _ => false

/-- Meal ratings of a decoded day. -/
def jsonDayRatings (d : JsonDay) : List ℚ :=
  [d.breakfast.rating, d.lunch.rating, d.dinner.rating]

/-- Modelled from the spec: schema validation of a decoded response. -/
def jsonValidate (j : JsonItinerary) : Bool :=
  j.accommodations.all (fun a => jsonRatingOk a.rating) &&
    j.daily_schedule.all
      (fun d => isIsoDate d.date && (jsonDayRatings d).all jsonRatingOk)

/-- Modelled from the spec: the default structure of the JSON dialect. -/
def jsonDefaultItinerary : JsonItinerary :=
  { accommodations := []
    daily_schedule := []
    travel_tips := { weather := "", transportation := "",
                     cultural_notes := "", seasonal_events := "" } }

/-- Modelled from the spec: JSON-mode parsing of a decoded response —
return it verbatim when validation passes, the default structure
otherwise (all-or-nothing). -/
def parse_json_mode (j : JsonItinerary) : JsonItinerary :=
  if jsonValidate j then j else jsonDefaultItinerary

/-- Every meal and accommodation rating of a decoded response. -/
def jsonAllRatings (j : JsonItinerary) : List ℚ :=
  j.accommodations.map JsonAccommodation.rating
    ++ (j.daily_schedule.map jsonDayRatings).flatten

/-! ## Specification expressions used by the theorems -/

/-- The embedded day numbers of the chunks whose day header is recognised,
in chunk order (the `(\d+)` group of the first header match per chunk). -/
def chunkNums (chunks : List String) : List ℕ :=
  chunks.filterMap (fun c =>
    if pyStrip c = "" then none
    else (findFirst tryDayAt (dayPrefixed c).data).map Prod.fst)

/-- `chunkNums` over the chunks of a daily-itinerary section. -/
def recognizedDayNums (text : String) : List ℕ :=
  chunkNums (dayChunks text)

/-- Inverse of the section split: rejoin the chunks with the consumed
newlines. -/
def joinNl : List (List Char) → List Char
  | [] => []
  | [s] => s
  | s :: rest => s ++ '\n' :: joinNl rest

/-- Appending strings is associative. -/
theorem strAppendAssoc (a b c : String) : (a ++ b) ++ c = a ++ (b ++ c) := by
  cases a with
  | mk la =>
    cases b with
    | mk lb =>
      cases c with
      | mk lc =>
        show String.mk ((la ++ lb) ++ lc) = String.mk (la ++ (lb ++ lc))
        rw [List.append_assoc]

set_option maxRecDepth 10000

/-!
## Claim C2 -- text-mode parsing never propagates an exception
-/

/-- Claim C2: for every input string, the top-level parse operation never
propagates an exception: whatever exception the `try:` body raises
(`parse_inner` returning `Except.error`) is caught and replaced by the
documented default result (empty accommodation list, empty daily schedule,
travel tips with four empty-string fields). -/
theorem parse_catches_all_exceptions (s e : String)
    (h : parse_inner s = .error e) :
    parse_itinerary_response s = defaultResult := by
  unfold parse_itinerary_response
  rw [h]

/-- Witness for C2: a meal rating group `(4.5.6)` makes the embedded
`float` conversion raise, and the parse returns the default structure. -/
theorem parse_catches_all_exceptions_witness :
    parse_itinerary_response
      "DAILY ITINERARY:\nDay 1 - 2024-01-01:\nBreakfast: X (4.5.6)" =
      defaultResult :=
  parse_catches_all_exceptions _ "could not convert string to float" (by decide)

/-!
## Claim C3 -- markdown links in meal lines
-/

/-- Evaluation of the meal extractor on the meal line of claim C3. -/
theorem mealSlot_luna :
    mealSlot "Breakfast:"
      "Breakfast: [Cafe Luna](http://x.test) (4.7) - cozy spot" =
      .ok { spot := "[Cafe Luna](http://x.test)", rating := decValue ['4'] ['7'],
            description := "cozy spot" } := rfl

/-- The decimal literal `4.7` as an exact rational. -/
theorem decValue47 : decValue ['4'] ['7'] = 47 / 10 := by
  simp [decValue, digitsToNat]
  norm_num

/-- Claim C3 counterexample: on the meal line
`Breakfast: [Cafe Luna](http://x.test) (4.7) - cozy spot` the meal extractor
does not return spot `Cafe Luna`: the markdown link is not unwrapped (and a
meal dictionary has no url key at all). -/
theorem meal_link_unwrap_cex :
    (mealSlot "Breakfast:"
      "Breakfast: [Cafe Luna](http://x.test) (4.7) - cozy spot").map
        MealEntry.spot ≠ .ok "Cafe Luna" := by
  decide

/-- Claim C3 (amended): on that meal line the extractor returns
spot `[Cafe Luna](http://x.test)` (the raw markdown link, not unwrapped),
rating `4.7` and description `cozy spot`; meal dictionaries carry no url
field. -/
theorem meal_link_kept_verbatim :
    mealSlot "Breakfast:"
      "Breakfast: [Cafe Luna](http://x.test) (4.7) - cozy spot" =
      .ok { spot := "[Cafe Luna](http://x.test)", rating := 47 / 10,
            description := "cozy spot" } := by
  rw [← decValue47]
  exact mealSlot_luna

/-!
## Claim C7 -- the `Cultural Etiquette:` label
-/

/-- Claim C7: `parse_travel_tips` has no `Cultural Etiquette:` branch, even
though the system instructions in the same source file tell the model to
emit that label: such a line is treated as an unlabeled continuation line
(here appended to the active `weather` field), and `cultural_notes` stays
empty. -/
theorem cultural_etiquette_unrecognized :
    parse_travel_tips "TRAVEL TIPS:\nWeather: mild\nCultural Etiquette: bow politely" =
      { weather := "mild Cultural Etiquette: bow politely",
        transportation := "", cultural_notes := "", seasonal_events := "" } := by
  decide

/-!
## Claim C8 -- missing ratings default to 0.0
-/

/-- Claim C8: a text fragment in which the `(\d+\.\d+)` pattern finds no
decimal number gets rating `0.0` from `extract_rating`; a meal line without
a parenthesised rating gets rating `0.0` from `parse_meal` without raising;
an accommodation detail line without a number leaves the hotel rating
untouched (its initialised `0.0`). -/
theorem missing_rating_is_zero :
    (∀ s : String, findFirst tryDecimalAt s.data = none →
      extract_rating s = 0) ∧
    (∀ s : String, findFirst tryParenRatingAt s.data = none →
      ∃ m, parse_meal s = .ok m ∧ m.rating = 0) ∧
    (∀ (h : Hotel) (detail : String), findFirst tryNumAt detail.data = none →
      (hotelDetail h detail).rating = h.rating) := by
  refine ⟨?_, ?_, ?_⟩
  · intro s h
    unfold extract_rating
    rw [h]
  · intro s h
    unfold parse_meal
    rw [h]
    exact ⟨_, rfl, rfl⟩
  · intro h detail hfind
    unfold hotelDetail
    rw [hfind]
    split_ifs <;> first | rfl | (split <;> rfl)

/-- Witness for C8: concrete rating-free inputs. -/
theorem missing_rating_is_zero_witness :
    extract_rating "no decimals here" = 0 ∧
    (∃ m, parse_meal "Cafe Azul - friendly" = .ok m ∧ m.rating = 0) ∧
    (hotelDetail (newHotel "H" none) "User Rating: excellent").rating =
      (newHotel "H" none).rating :=
  ⟨missing_rating_is_zero.1 _ (by decide),
   missing_rating_is_zero.2.1 _ (by decide),
   missing_rating_is_zero.2.2 _ _ (by decide)⟩

/-!
## Claim C9 -- generation failures propagate
-/

/-- Claim C9: when the external chat-completion call fails, or succeeds with
no choices, `generate_trip_plan` raises (returns `Except.error`) instead of
returning any synthesized content. -/
theorem generation_failure_raises (call : Except String (List String))
    (h : (∃ e, call = .error e) ∨ call = .ok []) :
    ∃ msg, generate_trip_plan call = .error msg := by
  rcases h with ⟨e, rfl⟩ | rfl
  · exact ⟨e, rfl⟩
  · exact ⟨"No response generated from OpenAI", rfl⟩

/-- Witness for C9: a failed call and an empty choice list both raise. -/
theorem generation_failure_raises_witness :
    (∃ msg, generate_trip_plan (.error "APIConnectionError") = .error msg) ∧
    (∃ msg, generate_trip_plan (.ok []) = .error msg) :=
  ⟨generation_failure_raises _ (.inl ⟨_, rfl⟩),
   generation_failure_raises _ (.inr rfl)⟩

/-!
## Claim C1 -- day numbers come from the header text, not a running count
-/

/-- A day built for header number `n` carries `day_number = n`. -/
theorem buildDay_day_number {n : ℕ} {date c : String} {d : DayPlan}
    (h : buildDay n date c = .ok d) : d.day_number = n := by
  unfold buildDay at h
  split at h
  · exact absurd h (by simp)
  · split at h
    · exact absurd h (by simp)
    · split at h
      · exact absurd h (by simp)
      · cases h
        rfl

/-- The day loop emits exactly the recognised chunks, in order, each with
the day number embedded in its header. -/
theorem parseDaysGo_day_numbers (chunks : List String) :
    ∀ (cur : Option DayPlan) (acc ds : List DayPlan),
    parseDaysGo chunks cur acc = .ok ds →
    ds.map DayPlan.day_number =
      acc.map DayPlan.day_number ++ (cur.map DayPlan.day_number).toList ++
        chunkNums chunks := by
  induction chunks with
  | nil =>
    intro cur acc ds h
    unfold parseDaysGo at h
    cases h
    cases cur <;> simp [chunkNums]
  | cons c rest ih =>
    intro cur acc ds h
    unfold parseDaysGo at h
    by_cases hstrip : pyStrip c = ""
    · rw [if_pos hstrip] at h
      rw [ih _ _ _ h]
      simp [chunkNums, hstrip]
    · rw [if_neg hstrip] at h
      cases hfind : findFirst tryDayAt (dayPrefixed c).data with
      | none =>
        rw [hfind] at h
        rw [ih _ _ _ h]
        simp [chunkNums, hstrip, hfind]
      | some nd =>
        rw [hfind] at h
        obtain ⟨n, date⟩ := nd
        dsimp only at h
        cases hb : buildDay n date (dayPrefixed c) with
        | error e => rw [hb] at h; exact absurd h (by simp)
        | ok day =>
          rw [hb] at h
          dsimp only at h
          rw [ih _ _ _ h]
          cases cur <;>
            simp [chunkNums, hstrip, hfind, buildDay_day_number hb]

/-- Claim C1 counterexample: with headers `Day 5` then `Day 2` the parsed
daily schedule has day numbers `[5, 2]`, not the renumbered `[1, 2]` the
claim demands. -/
theorem day_number_running_count_cex :
    ((parse_itinerary_response
        "DAILY ITINERARY:\nDay 5 - 2024-06-01:\nDay 2 - 2024-06-02:").daily_schedule.map
      DayPlan.day_number = [5, 2]) ∧ ([5, 2] ≠ [1, 2]) := by
  constructor
  · decide
  · decide

/-- Claim C1 (amended): text-mode daily parsing yields one entry per chunk
with a recognised `Day N - DATE:` header, in order, and each entry has
`day_number` is the literal `N` embedded in the header text (the running
count never overrides it, so day numbers need not be contiguous). -/
theorem daily_schedule_day_numbers_embedded (text : String) (ds : List DayPlan)
    (h : parse_daily_activities text = .ok ds) :
    ds.map DayPlan.day_number = recognizedDayNums text ∧
    ds.length = (recognizedDayNums text).length := by
  have hmap := parseDaysGo_day_numbers (dayChunks text) none [] ds h
  simp at hmap
  unfold recognizedDayNums
  refine ⟨hmap, ?_⟩
  rw [← hmap]
  simp

/-- Witness for C1 (amended): a single out-of-order header keeps its
embedded number `7`. -/
theorem daily_schedule_day_numbers_embedded_witness :
    ([{ day_number := 7, date := "2024-03-05", breakfast := defaultMeal,
        morning_activity := defaultActivity, lunch := defaultMeal,
        afternoon_activity := defaultActivity, dinner := defaultMeal,
        evening_activity := defaultActivity }] : List DayPlan).map
      DayPlan.day_number =
      recognizedDayNums "DAILY ITINERARY:\nDay 7 - 2024-03-05:" ∧
    ([{ day_number := 7, date := "2024-03-05", breakfast := defaultMeal,
        morning_activity := defaultActivity, lunch := defaultMeal,
        afternoon_activity := defaultActivity, dinner := defaultMeal,
        evening_activity := defaultActivity }] : List DayPlan).length =
      (recognizedDayNums "DAILY ITINERARY:\nDay 7 - 2024-03-05:").length :=
  daily_schedule_day_numbers_embedded _ _ rfl

/-!
## Claim C4 -- JSON mode rejects any out-of-range rating entirely
-/

/-- An out-of-range rating in the bound list falsifies the validation. -/
theorem jsonValidate_false_of_bad_rating (j : JsonItinerary)
    (hbad : ∃ r ∈ jsonAllRatings j, ¬(42 / 10 ≤ r ∧ r ≤ 5)) :
    jsonValidate j = false := by
  obtain ⟨r, hr, hout⟩ := hbad
  by_contra hv'
  have hv : jsonValidate j = true := by
    revert hv'
    cases jsonValidate j <;> simp
  unfold jsonValidate at hv
  rw [Bool.and_eq_true] at hv
  obtain ⟨h1, h2⟩ := hv
  rw [List.all_eq_true] at h1 h2
  unfold jsonAllRatings at hr
  rw [List.mem_append] at hr
  rcases hr with hacc | hday
  · obtain ⟨a, ha, rfl⟩ := List.mem_map.mp hacc
    have := h1 a ha
    rw [jsonRatingOk, decide_eq_true_eq] at this
    exact hout this
  · rw [List.mem_flatten] at hday
    obtain ⟨l, hl, hrl⟩ := hday
    obtain ⟨d, hd, rfl⟩ := List.mem_map.mp hl
    have hdok := h2 d hd
    rw [Bool.and_eq_true, List.all_eq_true] at hdok
    have := hdok.2 r hrl
    rw [jsonRatingOk, decide_eq_true_eq] at this
    exact hout this

/-- Claim C4: in JSON mode, a decoded response containing any meal or
accommodation rating outside `[4.2, 5.0]` is replaced in its entirety by
the default structure -- no partial acceptance. -/
theorem json_bad_rating_rejects_response (j : JsonItinerary)
    (hbad : ∃ r ∈ jsonAllRatings j, ¬(42 / 10 ≤ r ∧ r ≤ 5)) :
    parse_json_mode j = jsonDefaultItinerary := by
  unfold parse_json_mode
  rw [jsonValidate_false_of_bad_rating j hbad]
  simp

/-- A rating of `3.9` is below the contractual lower bound `4.2`. -/
theorem rating39_out_of_bounds : ¬(42 / 10 ≤ (39 / 10 : ℚ) ∧ (39 / 10 : ℚ) ≤ 5) := by
  norm_num

/-- Witness for C4: one response with a single low accommodation rating is
discarded wholesale, including its fully valid day entry. -/
theorem json_bad_rating_rejects_response_witness :
    parse_json_mode
      { accommodations := [{ name := "H", description := "d", location := "l",
                             rating := 39 / 10, unique_features := "u",
                             nightly_rate := 120, url := none }],
        daily_schedule := [{ day_number := 1, date := "2024-01-01",
                             breakfast := { spot := "B", rating := 45 / 10,
                                            description := "", url := none },
                             morning_activity := { activity := "walk",
                                                   description := "", url := none },
                             lunch := { spot := "L", rating := 45 / 10,
                                        description := "", url := none },
                             afternoon_activity := { activity := "museum",
                                                     description := "", url := none },
                             dinner := { spot := "D", rating := 45 / 10,
                                         description := "", url := none },
                             evening_activity := { activity := "show",
                                                   description := "", url := none } }],
        travel_tips := { weather := "w", transportation := "t",
                         cultural_notes := "c", seasonal_events := "s" } } =
      jsonDefaultItinerary :=
  json_bad_rating_rejects_response _
    ⟨39 / 10, by simp [jsonAllRatings, jsonDayRatings], rating39_out_of_bounds⟩

/-!
## Claim C5 -- section splitting
-/

/-- The section split never returns an empty chunk list. -/
theorem splitSections_ne_nil : ∀ l : List Char, splitSections l ≠ [] := by
  intro l
  induction l with
  | nil => simp [splitSections]
  | cons c rest ih =>
    unfold splitSections
    split
    · simp
    · cases hs : splitSections rest with
      | nil => exact absurd hs ih
      | cons h t => simp [consHead]

/-- `joinNl` commutes with consing a character onto the first chunk. -/
theorem joinNl_consHead (c : Char) (ls : List (List Char)) :
    joinNl (consHead c ls) = c :: joinNl ls := by
  match ls with
  | [] => rfl
  | [s] => rfl
  | s :: r :: t => rfl

/-- The first chunk of `consHead`. -/
theorem headD_consHead (c : Char) (ls : List (List Char)) :
    (consHead c ls).headD [] = c :: ls.headD [] := by
  cases ls <;> rfl

/-- Rejoining the split sections with newlines restores the input: the
split consumes exactly the newlines standing before recognised headers. -/
theorem joinNl_splitSections : ∀ l : List Char, joinNl (splitSections l) = l := by
  intro l
  induction l with
  | nil => rfl
  | cons c rest ih =>
    unfold splitSections
    split
    · rename_i hcond
      rw [Bool.and_eq_true, decide_eq_true_eq] at hcond
      cases hs : splitSections rest with
      | nil => exact absurd hs (splitSections_ne_nil rest)
      | cons hh tt =>
        have hjoin : joinNl ([] :: hh :: tt) = '\n' :: joinNl (hh :: tt) := rfl
        rw [hjoin, ← hs, ih, hcond.1]
    · rw [joinNl_consHead, ih]

/-- A newline-free prefix of the input is a prefix of the first chunk. -/
theorem splitSections_head_keeps : ∀ (pre l : List Char),
    (∀ ch ∈ pre, ch ≠ '\n') → pre.isPrefixOf l = true →
    pre.isPrefixOf ((splitSections l).headD []) = true := by
  intro pre
  induction pre with
  | nil =>
    intro l _ _
    simp [List.isPrefixOf]
  | cons p pt ih =>
    intro l hnl hpre
    cases l with
    | nil => simp [List.isPrefixOf] at hpre
    | cons c rest =>
      have hp : p = c ∧ pt.isPrefixOf rest = true := by
        simpa [List.isPrefixOf, Bool.and_eq_true] using hpre
      have hcn : ¬(c = '\n') := by
        intro hc
        exact hnl p (List.mem_cons_self p pt) (hp.1.trans hc)
      unfold splitSections
      rw [if_neg (by simp [hcn]), headD_consHead]
      have hrec := ih rest (fun ch hch => hnl ch (List.mem_cons_of_mem p hch)) hp.2
      have hstep : (p :: pt).isPrefixOf (c :: (splitSections rest).headD []) =
          (p == c && pt.isPrefixOf ((splitSections rest).headD [])) := rfl
      rw [hstep, hp.1, hrec]
      simp

/-- When a header literal starts the remainder, it also starts the first
chunk of its split. -/
theorem startsWithAny_headD (l : List Char) (h : startsWithAny l = true) :
    startsWithAny ((splitSections l).headD []) = true := by
  unfold startsWithAny at h ⊢
  rw [List.any_eq_true] at h ⊢
  obtain ⟨lit, hmem, hpre⟩ := h
  refine ⟨lit, hmem, splitSections_head_keeps _ _ ?_ hpre⟩
  simp only [headerLits, List.mem_cons, List.not_mem_nil, or_false] at hmem
  rcases hmem with rfl | rfl | rfl <;> decide

/-- Every chunk after the first starts with one of the three header
literals (`ACCOMMODATION:`, `DAILY ITINERARY:`, `TRAVEL TIPS:`, matched
case-sensitively). -/
theorem splitSections_tail_headers : ∀ l : List Char,
    ∀ sec ∈ (splitSections l).tail, startsWithAny sec = true := by
  intro l
  induction l with
  | nil =>
    intro sec hsec
    simp [splitSections] at hsec
  | cons c rest ih =>
    intro sec hsec
    unfold splitSections at hsec
    split at hsec
    · rename_i hcond
      rw [Bool.and_eq_true] at hcond
      rw [List.tail_cons] at hsec
      cases hs : splitSections rest with
      | nil => rw [hs] at hsec; simp at hsec
      | cons hh tt =>
        rw [hs] at hsec
        rcases List.mem_cons.mp hsec with rfl | htail
        · have := startsWithAny_headD rest hcond.2
          rw [hs] at this
          simpa using this
        · exact ih sec (by rw [hs]; simpa using htail)
    · cases hs : splitSections rest with
      | nil => rw [hs] at hsec; simp [consHead] at hsec
      | cons hh tt =>
        rw [hs] at hsec
        simp only [consHead, List.tail_cons] at hsec
        exact ih sec (by rw [hs]; simp [hsec])

/-- A section starting with none of the three header prefixes contributes
nothing to the parse result. -/
theorem sectionStep_nop (pd : ParsedData) (sec : String)
    (h1 : pyStartsWith (pyStrip sec) "ACCOMMODATION:" = false)
    (h2 : pyStartsWith (pyStrip sec) "DAILY ITINERARY:" = false)
    (h3 : pyStartsWith (pyStrip sec) "TRAVEL TIPS:" = false) :
    sectionStep pd sec = .ok pd := by
  simp [sectionStep, h1, h2, h3]

/-- Claim C5 counterexample: a lowercase `accommodation:` header and a
`DAILY SCHEDULE:` header are not recognised (the claimed case-insensitive
matching and the `DAILY SCHEDULE` alternative do not exist), while the
exact `ACCOMMODATION:` header is. -/
theorem section_headers_case_sensitive_cex :
    (parse_itinerary_response "accommodation:\n1. Hotel X\n- User Rating: 4.5").accommodation = [] ∧
    (parse_itinerary_response "DAILY SCHEDULE:\nDay 1 - 2024-01-01:").daily_schedule = [] ∧
    (parse_itinerary_response "ACCOMMODATION:\n1. Hotel X").accommodation ≠ [] := by
  refine ⟨by decide, by decide, by decide⟩

/-- Claim C5 (amended): the splitter cuts exactly at newlines immediately
followed by one of the case-sensitive literals `ACCOMMODATION:`,
`DAILY ITINERARY:`, `TRAVEL TIPS:` (no case folding, no `DAILY SCHEDULE`
alternative): rejoining restores the input, every chunk after the first
starts with a header literal, and a chunk starting with no header literal
contributes nothing to the output. -/
theorem section_split_spec :
    (∀ l : List Char, joinNl (splitSections l) = l) ∧
    (∀ l : List Char, ∀ sec ∈ (splitSections l).tail, startsWithAny sec = true) ∧
    (∀ (pd : ParsedData) (sec : String),
      pyStartsWith (pyStrip sec) "ACCOMMODATION:" = false →
      pyStartsWith (pyStrip sec) "DAILY ITINERARY:" = false →
      pyStartsWith (pyStrip sec) "TRAVEL TIPS:" = false →
      sectionStep pd sec = .ok pd) :=
  ⟨joinNl_splitSections, splitSections_tail_headers, sectionStep_nop⟩

/-- Witness for C5 at a concrete input with one recognised header. -/
theorem section_split_spec_witness :
    joinNl (splitSections ("intro\nTRAVEL TIPS:\nWeather: ok".data)) =
      "intro\nTRAVEL TIPS:\nWeather: ok".data ∧
    startsWithAny ("TRAVEL TIPS:\nWeather: ok".data) = true ∧
    sectionStep { accommodation := [], daily_schedule := [],
                  travel_tips := none } "just some prose" =
      .ok { accommodation := [], daily_schedule := [], travel_tips := none } :=
  ⟨section_split_spec.1 _,
   section_split_spec.2.1 "intro\nTRAVEL TIPS:\nWeather: ok".data _ (by decide),
   section_split_spec.2.2 _ _ (by decide) (by decide) (by decide)⟩

/-!
## Claim C6 -- travel-tips fields and the missing-section case
-/

/-- Reading one tips field after writing another leaves it unchanged. -/
theorem getTip_setTip_ne (f g : TipField) (t : TravelTips) (v : String)
    (h : f ≠ g) : getTip f (setTip g t v) = getTip f t := by
  cases f <;> cases g <;> first | rfl | exact absurd rfl h

/-- One `parse_travel_tips` loop step keeps a field empty and keeps it
inactive as long as the stepped line does not carry the label of that field. -/
theorem tipsStep_preserves (f : TipField) (st : TravelTips × Option TipField)
    (line : String) (h1 : getTip f st.1 = "") (h2 : st.2 ≠ some f)
    (hno : pyStartsWith (pyStrip line) (tipLabel f) = false) :
    getTip f (tipsStep st line).1 = "" ∧ (tipsStep st line).2 ≠ some f := by
  obtain ⟨t, cs⟩ := st
  simp only [tipsStep]
  split_ifs with hE hW hT hC hS
  · exact ⟨h1, h2⟩
  · have hf : f ≠ TipField.weather := by
      rintro rfl
      rw [tipLabel] at hno
      rw [hno] at hW
      cases hW
    exact ⟨(getTip_setTip_ne f _ _ _ hf).trans h1, by simpa using Ne.symm hf⟩
  · have hf : f ≠ TipField.transportation := by
      rintro rfl
      rw [tipLabel] at hno
      rw [hno] at hT
      cases hT
    exact ⟨(getTip_setTip_ne f _ _ _ hf).trans h1, by simpa using Ne.symm hf⟩
  · have hf : f ≠ TipField.cultural_notes := by
      rintro rfl
      rw [tipLabel] at hno
      rw [hno] at hC
      cases hC
    exact ⟨(getTip_setTip_ne f _ _ _ hf).trans h1, by simpa using Ne.symm hf⟩
  · have hf : f ≠ TipField.seasonal_events := by
      rintro rfl
      rw [tipLabel] at hno
      rw [hno] at hS
      cases hS
    exact ⟨(getTip_setTip_ne f _ _ _ hf).trans h1, by simpa using Ne.symm hf⟩
  · cases cs with
    | none => exact ⟨h1, h2⟩
    | some g =>
      have hg : f ≠ g := by
        rintro rfl
        exact h2 rfl
      exact ⟨(getTip_setTip_ne f _ _ _ hg).trans h1, h2⟩

/-- Folding the tips loop over label-free lines keeps a field empty. -/
theorem tips_foldl_empty (f : TipField) :
    ∀ (lines : List String) (st : TravelTips × Option TipField),
    getTip f st.1 = "" → st.2 ≠ some f →
    (∀ line ∈ lines, pyStartsWith (pyStrip line) (tipLabel f) = false) →
    getTip f ((lines.foldl tipsStep st).1) = "" := by
  intro lines
  induction lines with
  | nil => intro st h1 _ _; exact h1
  | cons line rest ih =>
    intro st h1 h2 hno
    rw [List.foldl_cons]
    have hstep := tipsStep_preserves f st line h1 h2
      (hno line (List.mem_cons_self line rest))
    exact ih _ hstep.1 hstep.2 (fun l hl => hno l (List.mem_cons_of_mem _ hl))

/-- The section loop leaves `travel_tips` untouched when no section starts
with the `TRAVEL TIPS:` header. -/
theorem sectionsGo_no_tips : ∀ (secs : List String) (pd r : ParsedData),
    (∀ sec ∈ secs, pyStartsWith (pyStrip sec) "TRAVEL TIPS:" = false) →
    sectionsGo secs pd = .ok r → r.travel_tips = pd.travel_tips := by
  intro secs
  induction secs with
  | nil =>
    intro pd r _ h
    unfold sectionsGo at h
    cases h
    rfl
  | cons sec rest ih =>
    intro pd r hno h
    unfold sectionsGo at h
    cases hs : sectionStep pd sec with
    | error e => rw [hs] at h; exact absurd h (by simp)
    | ok pd2 =>
      rw [hs] at h
      dsimp only at h
      have htips : pd2.travel_tips = pd.travel_tips := by
        unfold sectionStep at hs
        split_ifs at hs with hA hD hT
        · cases hs; rfl
        · cases hp : parse_daily_activities sec with
          | error e => rw [hp] at hs; cases hs
          | ok ds => rw [hp] at hs; cases hs; rfl
        · rw [hno sec (List.mem_cons_self sec rest)] at hT; cases hT
        · cases hs; rfl
      rw [ih pd2 r (fun l hl => hno l (List.mem_cons_of_mem _ hl)) h, htips]

/-- Claim C6 counterexample: parsing the empty string (which has no travel
tips section) leaves `travel_tips` as the empty dictionary, not the
four-field record with empty strings the claim demands. -/
theorem travel_tips_empty_dict_cex :
    (parse_itinerary_response "").travel_tips = none ∧
    (none : Option TravelTips) ≠
      some { weather := "", transportation := "", cultural_notes := "",
             seasonal_events := "" } := by
  exact ⟨rfl, by simp⟩

/-- Claim C6 (amended): whenever a `TRAVEL TIPS:` section is parsed, the
resulting record carries all four fields and a field whose label appears on
no line stays the empty string; but when no section starts with
`TRAVEL TIPS:` and parsing succeeds, `travel_tips` is the empty dictionary
(no fields at all) rather than the four-field record. -/
theorem travel_tips_field_defaults :
    (∀ (f : TipField) (text : String),
      (∀ line ∈ pySplit "\n" text,
        pyStartsWith (pyStrip line) (tipLabel f) = false) →
      getTip f (parse_travel_tips text) = "") ∧
    (∀ (s : String) (r : ParsedData),
      (∀ sec ∈ (splitSections s.data).map String.mk,
        pyStartsWith (pyStrip sec) "TRAVEL TIPS:" = false) →
      parse_inner s = .ok r → r.travel_tips = none) := by
  constructor
  · intro f text hno
    unfold parse_travel_tips
    exact tips_foldl_empty f _ _ (by cases f <;> rfl) (by simp) hno
  · intro s r hno h
    unfold parse_inner at h
    exact sectionsGo_no_tips _ _ _ hno h

/-- Witness for C6 at concrete inputs: a tips text with no `Weather:` line
leaves `weather` empty, and a header-free input keeps the empty
dictionary. -/
theorem travel_tips_field_defaults_witness :
    getTip TipField.weather (parse_travel_tips "Transportation: metro") = "" ∧
    ({ accommodation := [], daily_schedule := [],
       travel_tips := none } : ParsedData).travel_tips = none :=
  ⟨travel_tips_field_defaults.1 .weather _ (by decide),
   travel_tips_field_defaults.2 "just prose" _ (by decide) (by decide)⟩

/-!
## Claim C10 -- the prompt always contains destination and trip length
-/

/-- Appending the empty string on the left is the identity. -/
theorem empty_append_str (s : String) : "" ++ s = s := by
  cases s with
  | mk l =>
    show String.mk ([] ++ l) = String.mk l
    rw [List.nil_append]

/-- An occurrence of the three-part phrase `L ++ N ++ D` inside `s` is
an occurrence inside `x ++ s`. -/
theorem occursLND_skip {L N D x s : String}
    (h : ∃ a b, s = a ++ (L ++ (N ++ (D ++ b)))) :
    ∃ a b, x ++ s = a ++ (L ++ (N ++ (D ++ b))) := by
  obtain ⟨a, b, rfl⟩ := h
  exact ⟨x ++ a, b, (strAppendAssoc x a _).symm⟩

/-- The three-part phrase at the head of a chain is an occurrence. -/
theorem occursLND_here (L N D y : String) :
    ∃ a b, L ++ (N ++ (D ++ y)) = a ++ (L ++ (N ++ (D ++ b))) :=
  ⟨"", y, (empty_append_str _).symm⟩

/-- Claim C10: the prompt built by `generate_itinerary` always contains the
destination and the trip length rendered as
`Length of Stay: <end_date - start_date + 1> days`; it is a pure function
(by construction) of the trip record and the optionally present user
profile. -/
theorem prompt_contains_destination_and_length (t : Trip) (p : Option UserProfile) :
    (∃ a b, generate_itinerary_prompt t p = a ++ (t.destination ++ b)) ∧
    (∃ a b, generate_itinerary_prompt t p =
      a ++ ("Length of Stay: " ++
        (toString (t.end_date - t.start_date + 1) ++ (" days" ++ b)))) := by
  have e1 : ("\n    Length of Stay: " : String) = "\n    " ++ "Length of Stay: " := rfl
  have e2 : (" days\n    Travel Preferences: " : String) =
    " days" ++ "\n    Travel Preferences: " := rfl
  cases p with
  | none =>
    constructor
    · unfold generate_itinerary_prompt promptCore
      dsimp only
      simp only [strAppendAssoc]
      exact ⟨_, _, rfl⟩
    · unfold generate_itinerary_prompt promptCore
      dsimp only
      rw [e1, e2]
      simp only [strAppendAssoc]
      apply occursLND_skip
      apply occursLND_skip
      apply occursLND_skip
      exact occursLND_here _ _ _ _
  | some up =>
    constructor
    · unfold generate_itinerary_prompt promptCore
      dsimp only
      simp only [strAppendAssoc]
      exact ⟨_, _, rfl⟩
    · unfold generate_itinerary_prompt promptCore
      dsimp only
      rw [e1, e2]
      simp only [strAppendAssoc]
      apply occursLND_skip
      apply occursLND_skip
      apply occursLND_skip
      exact occursLND_here _ _ _ _

end TripPlanner
